import Mathlib

/-!
Shallow embedding of the sweep-input core of this repository, together with
the fee-rate conversion arithmetic (package chainfee) and the node-announcement
timestamp modifier (package netann).

Conventions of the embedding:
* Go machine integers are modelled as Nat / Int with explicit reductions where
  overflow or truncation matters: uint32 arithmetic reduces modulo 4294967296,
  int64 arithmetic reduces through wrap64, and Go int64 division (which
  truncates toward zero) is Int.tdiv.
* Go in-place mutation through pointers is modelled by explicit state passing:
  a function that mutates a value through a pointer returns the updated value
  as an extra component of its result.
* Go (value, error) returns are modelled as Except: Except.error e is the Go
  return (nil, e), Except.ok v the return (v, nil).
* Byte slices are List Nat, and opaque reference types (the transaction, the
  sighash cache) are Nat-valued handles: the core only passes them through.
-/

/-! Package chainfee (fee-rate conversion arithmetic) -/

/-- The witness scale factor of the blockchain package: one virtual byte is
four weight units. -/
def WitnessScaleFactor : Int := 4

/-- Two's-complement wrap of an integer into the int64 range, the behaviour of
overflowing Go int64 arithmetic. -/
def wrap64 (n : Int) : Int := (n + 2 ^ 63) % 2 ^ 64 - 2 ^ 63

/-- A value is representable as an int64. -/
def int64Range (n : Int) : Prop := -(2 ^ 63) ≤ n ∧ n ≤ 2 ^ 63 - 1

instance (n : Int) : Decidable (int64Range n) := by
  unfold int64Range; infer_instance

/-- SatPerKVByte represents a fee rate in sat/kb (an ltcutil.Amount, int64). -/
abbrev SatPerKVByte := Int

/-- SatPerKWeight represents a fee rate in sat/kw (an ltcutil.Amount, int64). -/
abbrev SatPerKWeight := Int

/-- FeePerKWeight converts the current fee rate from sat/kb to sat/kw: the Go
source divides by the witness scale factor, and Go int64 division truncates
toward zero. -/
def SatPerKVByte.FeePerKWeight (s : SatPerKVByte) : SatPerKWeight :=
  Int.tdiv s WitnessScaleFactor

/-- FeePerKVByte converts the current fee rate from sat/kw to sat/kb: the Go
source multiplies by the witness scale factor; int64 overflow wraps. -/
def SatPerKWeight.FeePerKVByte (s : SatPerKWeight) : SatPerKVByte :=
  wrap64 (s * WitnessScaleFactor)

/-! Package netann (node announcement modifiers) -/

/-- The reduced lnwire.NodeAnnouncement: only the fields the shown netann code
touches are modelled; their payload types are opaque to this code. Timestamp is
a uint32, kept as a Nat reduced modulo 4294967296 by every write. -/
structure NodeAnnouncement where
  Alias : Nat
  Addresses : List Nat
  RGBColor : Nat × Nat × Nat
  Features : List Nat
  Timestamp : Nat
deriving DecidableEq, Repr

/-- NodeAnnSetAlias sets the alias of the given node announcement. -/
def NodeAnnSetAlias (a : Nat) (nodeAnn : NodeAnnouncement) : NodeAnnouncement :=
  { nodeAnn with Alias := a }

/-- NodeAnnSetAddrs updates the addresses of the given node announcement. -/
def NodeAnnSetAddrs (addrs : List Nat) (nodeAnn : NodeAnnouncement) : NodeAnnouncement :=
  { nodeAnn with Addresses := addrs }

/-- NodeAnnSetColor sets the color of the given node announcement. -/
def NodeAnnSetColor (newColor : Nat × Nat × Nat) (nodeAnn : NodeAnnouncement) :
    NodeAnnouncement :=
  { nodeAnn with RGBColor := newColor }

/-- NodeAnnSetFeatures updates the features of the given node announcement. -/
def NodeAnnSetFeatures (features : List Nat) (nodeAnn : NodeAnnouncement) :
    NodeAnnouncement :=
  { nodeAnn with Features := features }

/-- NodeAnnSetTimestamp sets the timestamp of the announcement to the current
time, or increments the prior value if that time is not ahead of it. The clock
reading now is the Unix time; uint32 conversion and the uint32 increment reduce
modulo 4294967296. -/
def NodeAnnSetTimestamp (now : Nat) (nodeAnn : NodeAnnouncement) : NodeAnnouncement :=
  let newTimestamp : Nat := now % 4294967296
  let newTimestamp : Nat :=
    if newTimestamp ≤ nodeAnn.Timestamp then
      (nodeAnn.Timestamp + 1) % 4294967296
    else
      newTimestamp
  { nodeAnn with Timestamp := newTimestamp }

/-! Package input (sweep-input core) -/

/-- Go error values, opaque handles compared only for identity of the
propagated value. -/
abbrev GoError := Nat

/-- An opaque handle to the wire.MsgTx being built; the core only passes the
pointer through, so a reference identity suffices. -/
abbrev MsgTx := Nat

/-- An opaque handle to the shared txscript.TxSigHashes sighash cache. -/
abbrev TxSigHashes := Nat

/-- A witness stack: an ordered list of byte-slice stack elements. -/
abbrev TxWitness := List (List Nat)

/-- The outpoint (transaction id, output index) of the UTXO being spent. -/
structure OutPoint where
  hash : Nat
  index : Nat
deriving DecidableEq, Repr

/-- Modelled from the spec: the SignDescriptor declaration is not under the
shown sources. Per the spec it bundles the key reference, the witness-script
template, the output value and the sighash type, plus the two late-bound slots
refreshed at craft time: the sighash-cache reference and the target input
index. -/
structure SignDescriptor where
  keyDesc : Nat
  witnessScript : List Nat
  outputValue : Int
  hashType : Nat
  sigHashes : Option TxSigHashes
  inputIndex : Int
deriving DecidableEq, Repr

/-- Modelled from the spec: the WitnessType declaration is not under the shown
sources. Per the spec it is a closed, enumerated taxonomy of spend categories;
the tags below are the categories the spec names, including the fixed
accepted-success tag used by MakeHtlcSucceedInput. -/
inductive WitnessType where
  | CommitmentNoDelay
  | CommitmentTimeLock
  | CommitmentRevoke
  | CommitmentAnchor
  | HtlcOfferedRemoteTimeout
  | HtlcAcceptedRemoteSuccess
deriving DecidableEq, Repr

/-- The external Signer collaborator: from a sign descriptor and the
transaction it produces raw signature bytes or a signing error. A Lean
function is deterministic, matching the deterministic-signer premise. -/
abbrev Signer := SignDescriptor → MsgTx → Except GoError (List Nat)

/-- Modelled from the spec: the Script result declaration is not under the
shown sources. Per the spec it carries the ordered witness-stack elements plus
optional legacy signature-script bytes for nested-P2SH compatibility; the Go
zero value of the legacy part is the empty slice. -/
structure Script where
  Witness : TxWitness
  SigScript : List Nat
deriving DecidableEq, Repr

/-- Modelled from the spec: the per-WitnessType witness-construction table is
not under the shown sources. Per the spec every WitnessType has exactly one
strategy, a function of the signer, the (refreshed) descriptor, the
transaction, the sighash cache and the input index; a Lean function is total
over the closed tag set. Theorems quantify over this table. -/
abbrev StrategyTable :=
  WitnessType → Signer → SignDescriptor → MsgTx → TxSigHashes → Int →
    Except GoError Script

/-- Modelled from the spec: WitnessType.WitnessGenerator is not under the shown
sources. Per the spec the strategy returned for a tag, when invoked with
(transaction, sighash-cache, input-index), refreshes the descriptor's
late-bound sighash-cache and input-index slots to match the call and then
invokes the tag's strategy. The in-place refresh through the descriptor
pointer is returned as the second component. -/
def WitnessType.WitnessGenerator (table : StrategyTable) (wt : WitnessType)
    (signer : Signer) (descriptor : SignDescriptor) (tx : MsgTx)
    (hashCache : TxSigHashes) (inputIndex : Int) :
    Except GoError Script × SignDescriptor :=
  let desc : SignDescriptor :=
    { descriptor with sigHashes := some hashCache, inputIndex := inputIndex }
  (table wt signer desc tx hashCache inputIndex, desc)

/-- Modelled from the spec: SenderHtlcSpendRedeem is not under the shown
sources. Per the spec it asks the signer for a signature over the descriptor
and sweep transaction and directly builds the HTLC-success witness stack: the
signature with the descriptor's sighash type appended, the supplied payment
preimage verbatim, and the descriptor's witness script; a signer failure
propagates unchanged, and the preimage is never validated against any hash
commitment. -/
def SenderHtlcSpendRedeem (signer : Signer) (signDesc : SignDescriptor)
    (sweepTx : MsgTx) (paymentPreimage : List Nat) : Except GoError TxWitness :=
  match signer signDesc sweepTx with
  | Except.error e => Except.error e
  | Except.ok sweepSig =>
      Except.ok [sweepSig ++ [signDesc.hashType], paymentPreimage,
                 signDesc.witnessScript]

/-- The shared kit embedded by every concrete Input variant. -/
structure inputKit where
  outpoint : OutPoint
  witnessType : WitnessType
  signDesc : SignDescriptor
  heightHint : Nat
  blockToMaturity : Nat
deriving DecidableEq, Repr

/-- OutPoint returns the output's identifier to be included as a transaction
input. -/
def inputKit.OutPoint (i : inputKit) : OutPoint := i.outpoint

/-- WitnessType returns the type of witness that must be generated to spend
the output. -/
def inputKit.WitnessType (i : inputKit) : WitnessType := i.witnessType

/-- SignDesc returns the output's SignDescriptor, used during signing to
compute the witness. -/
def inputKit.SignDesc (i : inputKit) : SignDescriptor := i.signDesc

/-- HeightHint returns the minimum height at which a confirmed spending tx can
occur. -/
def inputKit.HeightHint (i : inputKit) : Nat := i.heightHint

/-- BlocksToMaturity returns the relative timelock, as a number of blocks,
that must be built on top of the confirmation height before the output can be
spent; zero for non-CSV locked inputs. -/
def inputKit.BlocksToMaturity (i : inputKit) : Nat := i.blockToMaturity

/-- BaseInput contains all the information needed to sweep a basic output
(CSV/CLTV/no time lock); it embeds the shared kit. -/
structure BaseInput extends inputKit
deriving DecidableEq, Repr

/-- MakeBaseInput assembles a new BaseInput from the dereferenced outpoint and
sign descriptor; the omitted blockToMaturity field takes the Go zero value. -/
def MakeBaseInput (outpoint : OutPoint) (witnessType : WitnessType)
    (signDescriptor : SignDescriptor) (heightHint : Nat) : BaseInput :=
  { outpoint := outpoint
    witnessType := witnessType
    signDesc := signDescriptor
    heightHint := heightHint
    blockToMaturity := 0 }

/-- NewBaseInput allocates and assembles a new BaseInput by calling
MakeBaseInput. -/
def NewBaseInput (outpoint : OutPoint) (witnessType : WitnessType)
    (signDescriptor : SignDescriptor) (heightHint : Nat) : BaseInput :=
  MakeBaseInput outpoint witnessType signDescriptor heightHint

/-- NewCsvInput assembles a new csv-locked input with an explicit
blockToMaturity. -/
def NewCsvInput (outpoint : OutPoint) (witnessType : WitnessType)
    (signDescriptor : SignDescriptor) (heightHint : Nat)
    (blockToMaturity : Nat) : BaseInput :=
  { outpoint := outpoint
    witnessType := witnessType
    signDesc := signDescriptor
    heightHint := heightHint
    blockToMaturity := blockToMaturity }

/-- CraftInputScript for BaseInput: looks up the witness generator for the
input's witness type over its own sign descriptor and invokes it with the
transaction, the sighash cache and the input index. The result carries the
input state after the call (its descriptor is refreshed in place through the
SignDesc pointer) and the untouched transaction. -/
def BaseInput.CraftInputScript (table : StrategyTable) (bi : BaseInput)
    (signer : Signer) (txn : MsgTx) (hashCache : TxSigHashes) (txinIdx : Int) :
    Except GoError Script × BaseInput × MsgTx :=
  let r := WitnessType.WitnessGenerator table bi.witnessType signer
    bi.signDesc txn hashCache txinIdx
  (r.1, { bi with signDesc := r.2 }, txn)

/-- HtlcSucceedInput constitutes a sweep input that needs a preimage; it
embeds the shared kit and additionally carries the preimage bytes. -/
structure HtlcSucceedInput extends inputKit where
  preimage : List Nat
deriving DecidableEq, Repr

/-- MakeHtlcSucceedInput assembles a new redeem input; its witness type is the
fixed accepted-success tag, not a caller argument. -/
def MakeHtlcSucceedInput (outpoint : OutPoint)
    (signDescriptor : SignDescriptor) (preimage : List Nat) (heightHint : Nat)
    (blocksToMaturity : Nat) : HtlcSucceedInput :=
  { outpoint := outpoint
    witnessType := WitnessType.HtlcAcceptedRemoteSuccess
    signDesc := signDescriptor
    heightHint := heightHint
    blockToMaturity := blocksToMaturity
    preimage := preimage }

/-- CraftInputScript for HtlcSucceedInput: copies the input's sign descriptor
into a local value, freshly binds the copy's sighash-cache and input-index
slots, and directly calls SenderHtlcSpendRedeem with the stored preimage,
bypassing the strategy table; on failure the error is returned with no
script. The input itself is unchanged (only the local descriptor copy is
written) and the transaction is untouched. -/
def HtlcSucceedInput.CraftInputScript (h : HtlcSucceedInput) (signer : Signer)
    (txn : MsgTx) (hashCache : TxSigHashes) (txinIdx : Int) :
    Except GoError Script × HtlcSucceedInput × MsgTx :=
  let desc : SignDescriptor :=
    { h.signDesc with sigHashes := some hashCache, inputIndex := txinIdx }
  match SenderHtlcSpendRedeem signer desc txn h.preimage with
  | Except.error err => (Except.error err, h, txn)
  | Except.ok witness => (Except.ok { Witness := witness, SigScript := [] }, h, txn)

/-! Scenario definitions for the defensive-copy contract: the caller builds an
input from its own outpoint/descriptor variables and afterwards overwrites
those variables; the pair of overwritten values is threaded through the state
so the post-mutation program state is explicit. -/

/-- Scenario: MakeBaseInput followed by the caller overwriting its outpoint
and descriptor variables. -/
def makeBaseInputThenMutate (outpoint : OutPoint) (witnessType : WitnessType)
    (signDescriptor : SignDescriptor) (heightHint : Nat)
    (laterOutpoint : OutPoint) (laterDesc : SignDescriptor) :
    BaseInput × OutPoint × SignDescriptor :=
  (MakeBaseInput outpoint witnessType signDescriptor heightHint,
   laterOutpoint, laterDesc)

/-- Scenario: NewBaseInput followed by the caller overwriting its outpoint and
descriptor variables. -/
def newBaseInputThenMutate (outpoint : OutPoint) (witnessType : WitnessType)
    (signDescriptor : SignDescriptor) (heightHint : Nat)
    (laterOutpoint : OutPoint) (laterDesc : SignDescriptor) :
    BaseInput × OutPoint × SignDescriptor :=
  (NewBaseInput outpoint witnessType signDescriptor heightHint,
   laterOutpoint, laterDesc)

/-- Scenario: NewCsvInput followed by the caller overwriting its outpoint and
descriptor variables. -/
def newCsvInputThenMutate (outpoint : OutPoint) (witnessType : WitnessType)
    (signDescriptor : SignDescriptor) (heightHint : Nat)
    (blockToMaturity : Nat) (laterOutpoint : OutPoint)
    (laterDesc : SignDescriptor) : BaseInput × OutPoint × SignDescriptor :=
  (NewCsvInput outpoint witnessType signDescriptor heightHint blockToMaturity,
   laterOutpoint, laterDesc)

/-- Scenario: MakeHtlcSucceedInput followed by the caller overwriting its
outpoint and descriptor variables. -/
def makeHtlcSucceedInputThenMutate (outpoint : OutPoint)
    (signDescriptor : SignDescriptor) (preimage : List Nat) (heightHint : Nat)
    (blocksToMaturity : Nat) (laterOutpoint : OutPoint)
    (laterDesc : SignDescriptor) :
    HtlcSucceedInput × OutPoint × SignDescriptor :=
  (MakeHtlcSucceedInput outpoint signDescriptor preimage heightHint
     blocksToMaturity,
   laterOutpoint, laterDesc)

/-! Shared helper lemmas -/

/-- wrap64 is the identity on values already in the int64 range. -/
theorem wrap64_eq_self (n : Int) (h : int64Range n) : wrap64 n = n := by
  unfold wrap64
  unfold int64Range at h
  have h1 : 0 ≤ n + 2 ^ 63 := by omega
  have h2 : n + 2 ^ 63 < 2 ^ 64 := by omega
  rw [Int.emod_eq_of_lt h1 h2]
  omega

/-- Characterization of the timestamp written by NodeAnnSetTimestamp. -/
theorem nodeAnnSetTimestamp_Timestamp (now : Nat) (nodeAnn : NodeAnnouncement) :
    (NodeAnnSetTimestamp now nodeAnn).Timestamp
      = if now % 4294967296 ≤ nodeAnn.Timestamp
        then (nodeAnn.Timestamp + 1) % 4294967296
        else now % 4294967296 := rfl

/-! Claim theorems -/

/-- C1: for every BaseInput and every craft call, the operation looks up the
strategy for the input's WitnessType, sets the input's SignDescriptor's
sighash-cache slot to hashCache and its input index to txinIdx before the
strategy runs, and invokes that strategy with (txn, hashCache, txinIdx); the
rest of the input state and the transaction are untouched. -/
theorem baseInput_craft_dispatch (table : StrategyTable) (bi : BaseInput)
    (signer : Signer) (txn : MsgTx) (hashCache : TxSigHashes) (txinIdx : Int) :
    (BaseInput.CraftInputScript table bi signer txn hashCache txinIdx).1
      = table bi.witnessType signer
          { bi.signDesc with sigHashes := some hashCache, inputIndex := txinIdx }
          txn hashCache txinIdx
    ∧ (BaseInput.CraftInputScript table bi signer txn hashCache txinIdx).2.1
      = { bi with signDesc :=
            { bi.signDesc with sigHashes := some hashCache, inputIndex := txinIdx } }
    ∧ (BaseInput.CraftInputScript table bi signer txn hashCache txinIdx).2.2 = txn :=
  ⟨rfl, rfl, rfl⟩

/-- C2: the HTLC-success variant bypasses the strategy dispatch: its craft
result is exactly SenderHtlcSpendRedeem applied to a descriptor copy freshly
bound to the call's sighash cache and input index, with the stored preimage
passed verbatim; for every preimage (no hash validation anywhere), a signer
success yields the witness stack carrying the possibly-wrong preimage as its
second element. -/
theorem htlcSucceedInput_craft_redeem (h : HtlcSucceedInput) (signer : Signer)
    (txn : MsgTx) (hashCache : TxSigHashes) (txinIdx : Int) :
    (HtlcSucceedInput.CraftInputScript h signer txn hashCache txinIdx).1
      = Except.map (fun w => { Witness := w, SigScript := [] })
          (SenderHtlcSpendRedeem signer
            { h.signDesc with sigHashes := some hashCache, inputIndex := txinIdx }
            txn h.preimage)
    ∧ ∀ sig : List Nat,
        signer { h.signDesc with sigHashes := some hashCache, inputIndex := txinIdx }
            txn = Except.ok sig →
        (HtlcSucceedInput.CraftInputScript h signer txn hashCache txinIdx).1
          = Except.ok
              { Witness := [sig ++ [h.signDesc.hashType], h.preimage,
                            h.signDesc.witnessScript],
                SigScript := [] } := by
  constructor
  · cases hr : signer
      { h.signDesc with sigHashes := some hashCache, inputIndex := txinIdx } txn with
    | error e =>
        simp [HtlcSucceedInput.CraftInputScript, SenderHtlcSpendRedeem, hr,
          Except.map]
    | ok sig =>
        simp [HtlcSucceedInput.CraftInputScript, SenderHtlcSpendRedeem, hr,
          Except.map]
  · intro sig hsig
    simp [HtlcSucceedInput.CraftInputScript, SenderHtlcSpendRedeem, hsig]

/-- Witness for C2: a concrete HTLC input whose two-byte preimage matches no
hash commitment of the stored script still yields a witness with that preimage
verbatim as the middle stack element. -/
theorem htlcSucceedInput_craft_redeem_witness :
    (HtlcSucceedInput.CraftInputScript
        (MakeHtlcSucceedInput ⟨1, 0⟩ ⟨7, [81], 1000, 1, none, 0⟩ [18, 52] 100 0)
        (fun _ _ => Except.ok [9, 9]) 5 3 0).1
      = Except.ok { Witness := [[9, 9, 1], [18, 52], [81]], SigScript := [] } :=
  (htlcSucceedInput_craft_redeem
      (MakeHtlcSucceedInput ⟨1, 0⟩ ⟨7, [81], 1000, 1, none, 0⟩ [18, 52] 100 0)
      (fun _ _ => Except.ok [9, 9]) 5 3 0).2 [9, 9] rfl

/-- C3: a failing witness-generation or signing step propagates its error
unchanged, with no script, and the transaction handled by the call comes back
untouched, for both input variants. -/
theorem craft_error_propagation (table : StrategyTable) (bi : BaseInput)
    (h : HtlcSucceedInput) (signer : Signer) (txn : MsgTx)
    (hashCache : TxSigHashes) (txinIdx : Int) (e e2 : GoError) :
    (table bi.witnessType signer
        { bi.signDesc with sigHashes := some hashCache, inputIndex := txinIdx }
        txn hashCache txinIdx = Except.error e →
      (BaseInput.CraftInputScript table bi signer txn hashCache txinIdx).1
          = Except.error e
      ∧ (BaseInput.CraftInputScript table bi signer txn hashCache txinIdx).2.2
          = txn)
    ∧ (signer { h.signDesc with sigHashes := some hashCache, inputIndex := txinIdx }
          txn = Except.error e2 →
      (HtlcSucceedInput.CraftInputScript h signer txn hashCache txinIdx).1
          = Except.error e2
      ∧ (HtlcSucceedInput.CraftInputScript h signer txn hashCache txinIdx).2.2
          = txn) := by
  constructor
  · intro htab
    refine ⟨?_, rfl⟩
    show table bi.witnessType signer
        { bi.signDesc with sigHashes := some hashCache, inputIndex := txinIdx }
        txn hashCache txinIdx = Except.error e
    exact htab
  · intro hsig
    constructor
    · simp [HtlcSucceedInput.CraftInputScript, SenderHtlcSpendRedeem, hsig]
    · cases hr : SenderHtlcSpendRedeem signer
        { h.signDesc with sigHashes := some hashCache, inputIndex := txinIdx }
        txn h.preimage with
      | error err => simp [HtlcSucceedInput.CraftInputScript, hr]
      | ok w => simp [HtlcSucceedInput.CraftInputScript, hr]

/-- Witness for C3: a strategy table and a signer that both fail; the craft
calls surface exactly those errors. -/
theorem craft_error_propagation_witness :
    ((BaseInput.CraftInputScript (fun _ _ _ _ _ _ => Except.error 404)
        (MakeBaseInput ⟨0, 1⟩ WitnessType.CommitmentNoDelay ⟨0, [], 0, 1, none, 0⟩ 100)
        (fun _ _ => Except.error 404) 7 2 0).1 = Except.error 404)
    ∧ ((HtlcSucceedInput.CraftInputScript
        (MakeHtlcSucceedInput ⟨0, 1⟩ ⟨0, [], 0, 1, none, 0⟩ [1] 100 0)
        (fun _ _ => Except.error 500) 7 2 0).1 = Except.error 500) :=
  ⟨((craft_error_propagation (fun _ _ _ _ _ _ => Except.error 404)
      (MakeBaseInput ⟨0, 1⟩ WitnessType.CommitmentNoDelay ⟨0, [], 0, 1, none, 0⟩ 100)
      (MakeHtlcSucceedInput ⟨0, 1⟩ ⟨0, [], 0, 1, none, 0⟩ [1] 100 0)
      (fun _ _ => Except.error 404) 7 2 0 404 500).1 rfl).1,
   ((craft_error_propagation (fun _ _ _ _ _ _ => Except.error 404)
      (MakeBaseInput ⟨0, 1⟩ WitnessType.CommitmentNoDelay ⟨0, [], 0, 1, none, 0⟩ 100)
      (MakeHtlcSucceedInput ⟨0, 1⟩ ⟨0, [], 0, 1, none, 0⟩ [1] 100 0)
      (fun _ _ => Except.error 500) 7 2 0 404 500).2 rfl).1⟩

/-- C4: every HtlcSucceedInput produced by MakeHtlcSucceedInput carries the
fixed accepted-success witness type; the constructor takes no witness-type
argument, so the caller cannot choose another. -/
theorem makeHtlcSucceedInput_fixed_witnessType (outpoint : OutPoint)
    (signDescriptor : SignDescriptor) (preimage : List Nat)
    (heightHint blocksToMaturity : Nat) :
    inputKit.WitnessType
        (MakeHtlcSucceedInput outpoint signDescriptor preimage heightHint
          blocksToMaturity).toinputKit
      = WitnessType.HtlcAcceptedRemoteSuccess := rfl

/-- C5: every constructor stores the caller's outpoint and descriptor by
value: in the construct-then-mutate scenarios the caller's later overwrites
are invisible, the accessors return the construction-time arguments, and
CraftInputScript observes only the construction-time signing material. -/
theorem constructors_copy_arguments (outpoint laterOutpoint : OutPoint)
    (witnessType : WitnessType) (signDescriptor laterDesc : SignDescriptor)
    (heightHint blockToMaturity : Nat) (preimage : List Nat)
    (table : StrategyTable) (signer : Signer) (txn : MsgTx)
    (hashCache : TxSigHashes) (txinIdx : Int) :
    (inputKit.OutPoint (makeBaseInputThenMutate outpoint witnessType
          signDescriptor heightHint laterOutpoint laterDesc).1.toinputKit
        = outpoint
      ∧ inputKit.SignDesc (makeBaseInputThenMutate outpoint witnessType
          signDescriptor heightHint laterOutpoint laterDesc).1.toinputKit
        = signDescriptor)
    ∧ (inputKit.OutPoint (newBaseInputThenMutate outpoint witnessType
          signDescriptor heightHint laterOutpoint laterDesc).1.toinputKit
        = outpoint
      ∧ inputKit.SignDesc (newBaseInputThenMutate outpoint witnessType
          signDescriptor heightHint laterOutpoint laterDesc).1.toinputKit
        = signDescriptor)
    ∧ (inputKit.OutPoint (newCsvInputThenMutate outpoint witnessType
          signDescriptor heightHint blockToMaturity laterOutpoint
          laterDesc).1.toinputKit = outpoint
      ∧ inputKit.SignDesc (newCsvInputThenMutate outpoint witnessType
          signDescriptor heightHint blockToMaturity laterOutpoint
          laterDesc).1.toinputKit = signDescriptor)
    ∧ (inputKit.OutPoint (makeHtlcSucceedInputThenMutate outpoint
          signDescriptor preimage heightHint blockToMaturity laterOutpoint
          laterDesc).1.toinputKit = outpoint
      ∧ inputKit.SignDesc (makeHtlcSucceedInputThenMutate outpoint
          signDescriptor preimage heightHint blockToMaturity laterOutpoint
          laterDesc).1.toinputKit = signDescriptor)
    ∧ (BaseInput.CraftInputScript table
          (makeBaseInputThenMutate outpoint witnessType signDescriptor
            heightHint laterOutpoint laterDesc).1
          signer txn hashCache txinIdx).1
        = table witnessType signer
            { signDescriptor with sigHashes := some hashCache,
                                  inputIndex := txinIdx }
            txn hashCache txinIdx
    ∧ (HtlcSucceedInput.CraftInputScript
          (makeHtlcSucceedInputThenMutate outpoint signDescriptor preimage
            heightHint blockToMaturity laterOutpoint laterDesc).1
          signer txn hashCache txinIdx).1
        = Except.map (fun w => { Witness := w, SigScript := [] })
            (SenderHtlcSpendRedeem signer
              { signDescriptor with sigHashes := some hashCache,
                                    inputIndex := txinIdx }
              txn preimage) := by
  refine ⟨⟨rfl, rfl⟩, ⟨rfl, rfl⟩, ⟨rfl, rfl⟩, ⟨rfl, rfl⟩, rfl, ?_⟩
  cases hr : signer
      { signDescriptor with sigHashes := some hashCache,
                            inputIndex := txinIdx } txn with
  | error e =>
      simp [HtlcSucceedInput.CraftInputScript, SenderHtlcSpendRedeem,
        makeHtlcSucceedInputThenMutate, MakeHtlcSucceedInput, hr, Except.map]
  | ok sig =>
      simp [HtlcSucceedInput.CraftInputScript, SenderHtlcSpendRedeem,
        makeHtlcSucceedInputThenMutate, MakeHtlcSucceedInput, hr, Except.map]

/-- C6: BlocksToMaturity and HeightHint are pure accessors of the values fixed
at construction: zero maturity for MakeBaseInput and NewBaseInput, the given
maturity for NewCsvInput and MakeHtlcSucceedInput, and the given height hint
for every constructor. -/
theorem accessors_fixed_at_construction (outpoint : OutPoint)
    (witnessType : WitnessType) (signDescriptor : SignDescriptor)
    (heightHint m : Nat) (preimage : List Nat) :
    inputKit.BlocksToMaturity
        (MakeBaseInput outpoint witnessType signDescriptor
          heightHint).toinputKit = 0
    ∧ inputKit.BlocksToMaturity
        (NewBaseInput outpoint witnessType signDescriptor
          heightHint).toinputKit = 0
    ∧ inputKit.BlocksToMaturity
        (NewCsvInput outpoint witnessType signDescriptor heightHint
          m).toinputKit = m
    ∧ inputKit.BlocksToMaturity
        (MakeHtlcSucceedInput outpoint signDescriptor preimage heightHint
          m).toinputKit = m
    ∧ inputKit.HeightHint
        (MakeBaseInput outpoint witnessType signDescriptor
          heightHint).toinputKit = heightHint
    ∧ inputKit.HeightHint
        (NewBaseInput outpoint witnessType signDescriptor
          heightHint).toinputKit = heightHint
    ∧ inputKit.HeightHint
        (NewCsvInput outpoint witnessType signDescriptor heightHint
          m).toinputKit = heightHint
    ∧ inputKit.HeightHint
        (MakeHtlcSucceedInput outpoint signDescriptor preimage heightHint
          m).toinputKit = heightHint :=
  ⟨rfl, rfl, rfl, rfl, rfl, rfl, rfl, rfl⟩

/-- C7: with a (necessarily deterministic) functional signer, crafting twice
with the same transaction, sighash cache and index gives identical output: the
second call, run on the input state left by the first call (whose descriptor
was refreshed in place for the base variant), returns the same result. -/
theorem craft_idempotent (table : StrategyTable) (bi : BaseInput)
    (h : HtlcSucceedInput) (signer : Signer) (txn : MsgTx)
    (hashCache : TxSigHashes) (txinIdx : Int) :
    (BaseInput.CraftInputScript table
        (BaseInput.CraftInputScript table bi signer txn hashCache txinIdx).2.1
        signer txn hashCache txinIdx).1
      = (BaseInput.CraftInputScript table bi signer txn hashCache txinIdx).1
    ∧ (HtlcSucceedInput.CraftInputScript
        (HtlcSucceedInput.CraftInputScript h signer txn hashCache txinIdx).2.1
        signer txn hashCache txinIdx).1
      = (HtlcSucceedInput.CraftInputScript h signer txn hashCache txinIdx).1 := by
  constructor
  · rfl
  · cases hr : SenderHtlcSpendRedeem signer
        { h.signDesc with sigHashes := some hashCache, inputIndex := txinIdx }
        txn h.preimage with
    | error err => simp [HtlcSucceedInput.CraftInputScript, hr]
    | ok w => simp [HtlcSucceedInput.CraftInputScript, hr]

/-- C8: converting sat/kw to sat/kb and back is the identity whenever the
multiplication by the witness scale factor stays in int64 range; the reverse
round trip starting from sat/kb is not the identity for any in-range value not
divisible by four, because FeePerKWeight truncates. -/
theorem fee_rate_roundtrip (s : SatPerKWeight)
    (hs : int64Range (s * WitnessScaleFactor)) :
    SatPerKVByte.FeePerKWeight (SatPerKWeight.FeePerKVByte s) = s
    ∧ ∀ t : SatPerKVByte, int64Range t → ¬ (4 ∣ t) →
        SatPerKWeight.FeePerKVByte (SatPerKVByte.FeePerKWeight t) ≠ t := by
  constructor
  · show Int.tdiv (wrap64 (s * WitnessScaleFactor)) WitnessScaleFactor = s
    rw [wrap64_eq_self _ hs]
    show Int.tdiv (s * 4) 4 = s
    exact Int.mul_tdiv_cancel s (by decide)
  · intro t ht hdvd heq
    obtain ⟨u, rfl⟩ : ∃ u : Int, u = t := ⟨t, rfl⟩
    have hq : SatPerKWeight.FeePerKVByte (SatPerKVByte.FeePerKWeight u)
        = wrap64 (Int.tdiv u 4 * 4) := rfl
    have hmod : 4 * Int.tdiv u 4 + Int.tmod u 4 = u := Int.tdiv_add_tmod u 4
    have hrange : int64Range (Int.tdiv u 4 * 4) := by
      unfold int64Range at ht ⊢
      by_cases hpos : (0 : Int) ≤ u
      · have h1 : 0 ≤ Int.tdiv u 4 := Int.tdiv_nonneg hpos (by decide)
        have h2 : 0 ≤ Int.tmod u 4 := Int.tmod_nonneg 4 hpos
        omega
      · have hnt : (0 : Int) ≤ -u := by omega
        have h1 : 0 ≤ Int.tdiv (-u) 4 := Int.tdiv_nonneg hnt (by decide)
        have h2 : 0 ≤ Int.tmod (-u) 4 := Int.tmod_nonneg 4 hnt
        have h3 : Int.tdiv (-u) 4 = -Int.tdiv u 4 := Int.neg_tdiv u 4
        have h4 : 4 * Int.tdiv (-u) 4 + Int.tmod (-u) 4 = -u :=
          Int.tdiv_add_tmod (-u) 4
        omega
    rw [hq, wrap64_eq_self _ hrange] at heq
    have heq2 : Int.tdiv u 4 * 4 = u := heq
    have hquot : u = 4 * Int.tdiv u 4 := by omega
    exact hdvd ⟨Int.tdiv u 4, hquot⟩

/-- Witness for C8: the fee floor 253 sat/kw survives the round trip, while
the sat/kb rate 1, not divisible by four, does not. -/
theorem fee_rate_roundtrip_witness :
    int64Range (253 * WitnessScaleFactor)
    ∧ SatPerKVByte.FeePerKWeight (SatPerKWeight.FeePerKVByte 253) = 253
    ∧ int64Range 1
    ∧ ¬ ((4 : Int) ∣ 1)
    ∧ SatPerKWeight.FeePerKVByte (SatPerKVByte.FeePerKWeight 1) ≠ 1 :=
  ⟨by decide, (fee_rate_roundtrip 253 (by decide)).1, by decide, by decide,
   (fee_rate_roundtrip 253 (by decide)).2 1 (by decide) (by decide)⟩

/-- C9: NodeAnnSetTimestamp strictly increases any prior timestamp below the
uint32 maximum, for every clock reading: the new value is the truncated clock
when that is ahead of the prior value and the prior value plus one otherwise;
at the uint32 maximum the increment wraps to zero and monotonicity fails. -/
theorem nodeAnnSetTimestamp_strictly_increases (nodeAnn : NodeAnnouncement)
    (now : Nat) :
    (nodeAnn.Timestamp < 4294967295 →
      nodeAnn.Timestamp < (NodeAnnSetTimestamp now nodeAnn).Timestamp
      ∧ (nodeAnn.Timestamp < now % 4294967296 →
          (NodeAnnSetTimestamp now nodeAnn).Timestamp = now % 4294967296)
      ∧ (now % 4294967296 ≤ nodeAnn.Timestamp →
          (NodeAnnSetTimestamp now nodeAnn).Timestamp
            = nodeAnn.Timestamp + 1))
    ∧ (nodeAnn.Timestamp = 4294967295 →
        (NodeAnnSetTimestamp now nodeAnn).Timestamp = 0
        ∧ ¬ nodeAnn.Timestamp < (NodeAnnSetTimestamp now nodeAnn).Timestamp) := by
  simp only [nodeAnnSetTimestamp_Timestamp]
  refine ⟨fun hlt => ⟨?_, fun h2 => ?_, fun h3 => ?_⟩,
          fun heq => ⟨?_, ?_⟩⟩ <;> split <;> omega

/-- Witness for C9: a prior timestamp of 100 is advanced to a later clock
reading, bumped to 101 under an earlier clock reading, and the maximal prior
timestamp wraps to zero. -/
theorem nodeAnnSetTimestamp_strictly_increases_witness :
    (NodeAnnSetTimestamp 1700000000
        ⟨0, [], (0, 0, 0), [], 100⟩).Timestamp = 1700000000
    ∧ (NodeAnnSetTimestamp 50 ⟨0, [], (0, 0, 0), [], 100⟩).Timestamp = 101
    ∧ (NodeAnnSetTimestamp 1700000000
        ⟨0, [], (0, 0, 0), [], 4294967295⟩).Timestamp = 0 :=
  ⟨((nodeAnnSetTimestamp_strictly_increases
        ⟨0, [], (0, 0, 0), [], 100⟩ 1700000000).1 (by decide)).2.1 (by decide),
   ((nodeAnnSetTimestamp_strictly_increases
        ⟨0, [], (0, 0, 0), [], 100⟩ 50).1 (by decide)).2.2 (by decide),
   ((nodeAnnSetTimestamp_strictly_increases
        ⟨0, [], (0, 0, 0), [], 4294967295⟩ 1700000000).2 rfl).1⟩
